import Mathlib

/-!
Verification of the WhatsApp webhook monitor core against its
natural-language specification.  The definitions below are a shallow
embedding of the TypeScript sources:

  * src/lib/webhook-processor.ts   (payload normalizer, second revision)
  * src/app/api/webhook/route.ts   (GET verification, auto-reply dispatch)
  * src/unnamed/part_005           (shouldSendAutoReply decision unit)
  * src/unnamed/part_006           (cached getResponseConfig)
  * src/lib/whatsapp-sender.ts     (outbound sender adapter)

JavaScript runtime conventions are made explicit: optional object fields
become Option, string truthiness tests become emptiness tests, numbers
produced by parseInt become Option Int with none standing for NaN, and
the wall clock Date.now() becomes an explicit parameter now measured in
milliseconds.  Vendor-supplied floating point numbers that are only ever
interpolated into strings (location coordinates) are represented by
their decimal rendering.
-/

/-- JavaScript truthiness of an optional string: undefined and the empty
string are falsy, every other string is truthy. -/
def strTruthy : Option String → Bool
  | none => false
  | some s => !(s == "")

/-- JavaScript a || b over an optional string a with string fallback b. -/
def jsStrOr (a : Option String) (b : String) : String :=
  match a with
  | some s => if s == "" then b else s
  | none => b

/-- JavaScript String.prototype.includes: substring containment. -/
def jsIncludes (s pattern : String) : Bool :=
  decide (pattern.data <:+: s.data)

/-- Characters stripped by String.prototype.trim (common whitespace). -/
def isJsSpace (c : Char) : Bool :=
  c == ' ' || c == '\t' || c == '\n' || c == '\r'

/-- JavaScript String.prototype.trim, modelled on the character list. -/
def jsTrim (s : String) : String :=
  ⟨((s.data.dropWhile isJsSpace).reverse.dropWhile isJsSpace).reverse⟩

/-- Decimal digit character for a value below ten. -/
def decDigitChar (d : Nat) : Char :=
  Char.ofNat (48 + d)

/-- Accumulator-style decimal rendering of a natural number.  The fuel
argument only bounds the recursion; natDecimalStr always supplies
enough of it. -/
def natToDecimalCore : Nat → Nat → List Char → List Char
  | 0, _, acc => acc
  | fuel + 1, n, acc =>
    let d := decDigitChar (n % 10)
    let n2 := n / 10
    if n2 == 0 then d :: acc else natToDecimalCore fuel n2 (d :: acc)

/-- Decimal rendering of a natural number, as JavaScript prints it. -/
def natDecimalStr (n : Nat) : String :=
  ⟨natToDecimalCore (n + 1) n []⟩

/-- How JavaScript template literals render the result of parseInt:
an integer in decimal, or the string NaN. -/
def jsNumToString : Option Int → String
  | none => "NaN"
  | some i => if i < 0 then "-" ++ natDecimalStr i.natAbs else natDecimalStr i.natAbs

/-- Digits read by parseInt after the optional sign. -/
def parseDecDigits (cs : List Char) : Option Nat :=
  let ds := cs.takeWhile Char.isDigit
  if ds.isEmpty then none
  else some (ds.foldl (fun acc c => acc * 10 + (c.toNat - 48)) 0)

/-- JavaScript parseInt on a string, radix 10: skip leading whitespace,
read an optional sign and then the longest run of decimal digits; none
models the NaN result when no digit is found. -/
def jsParseInt (s : String) : Option Int :=
  let cs := s.data.dropWhile isJsSpace
  match cs with
  | '-' :: rest => (parseDecDigits rest).map (fun n => -(n : Int))
  | '+' :: rest => (parseDecDigits rest).map (fun n => (n : Int))
  | _ => (parseDecDigits cs).map (fun n => (n : Int))

/-! ## Data model (src/types/webhook.ts) -/

structure TextObject where
  body : String
deriving DecidableEq, Repr

/-- Media attachment; only the caption is ever read by the processor. -/
structure MediaObject where
  caption : Option String
deriving DecidableEq, Repr

/-- Location payload.  latitude and longitude are vendor numbers; they
are only interpolated into the summary string, so they are represented
by their decimal rendering. -/
structure LocationObject where
  latitude : String
  longitude : String
  name : Option String
deriving DecidableEq, Repr

structure ButtonReply where
  id : String
  title : String
deriving DecidableEq, Repr

structure CtaUrlReply where
  title : String
  payload : String
deriving DecidableEq, Repr

structure ListReply where
  id : String
  title : String
deriving DecidableEq, Repr

/-- Interactive click payload (interface Interactive in the source).
The vendor is inconsistent about the CTA field name, hence both
cta_reply and cta_url_reply. -/
structure WhatsAppInteractive where
  type : String
  button_reply : Option ButtonReply
  cta_reply : Option CtaUrlReply
  cta_url_reply : Option CtaUrlReply
  list_reply : Option ListReply
deriving DecidableEq, Repr

structure WhatsAppMessage where
  «from» : String
  id : String
  timestamp : String
  type : String
  text : Option TextObject
  image : Option MediaObject
  video : Option MediaObject
  document : Option MediaObject
  location : Option LocationObject
  interactive : Option WhatsAppInteractive
deriving DecidableEq, Repr

structure WhatsAppStatus where
  id : String
  status : String
  timestamp : String
  recipient_id : String
deriving DecidableEq, Repr

structure WhatsAppContact where
  wa_id : String
deriving DecidableEq, Repr

/-- Nested metadata object of a change value. -/
structure WebhookMetadata where
  display_phone_number : String
  phone_number_id : String
deriving DecidableEq, Repr

/-- One element of an unrecognized change-value field.  Only the keys
the catch-all reads are modelled. -/
structure UnknownItem where
  id : Option String
  timestamp : Option String
  «from» : Option String
  recipient_id : Option String
  wa_id : Option String
deriving DecidableEq, Repr

/-- Runtime value of an unrecognized change-value field: an array of
objects, a bare object, or a primitive (string, number, boolean, null)
that the catch-all skips. -/
inductive UnknownValue where
  | arr (items : List UnknownItem)
  | obj (item : UnknownItem)
  | prim
deriving DecidableEq, Repr

/-- A change value as delivered at runtime.  Every declared field may be
absent in the incoming JSON, so each is an Option; extra holds the
fields outside the declared interface, in object key order. -/
structure WhatsAppWebhookValue where
  messaging_product : Option String
  metadata : Option WebhookMetadata
  contacts : Option (List WhatsAppContact)
  messages : Option (List WhatsAppMessage)
  statuses : Option (List WhatsAppStatus)
  extra : List (String × UnknownValue)
deriving DecidableEq, Repr

structure WhatsAppWebhookChange where
  field : String
  value : WhatsAppWebhookValue
deriving DecidableEq, Repr

structure WhatsAppWebhookEntry where
  id : String
  changes : List WhatsAppWebhookChange
deriving DecidableEq, Repr

structure WhatsAppWebhookPayload where
  object : String
  entry : List WhatsAppWebhookEntry
deriving DecidableEq, Repr

/-- The normalized record (interface WhatsAppMessageData).  timestamp is
the parseInt result, so none models NaN. -/
structure WhatsAppMessageData where
  message_id : String
  from_number : String
  to_number : String
  timestamp : Option Int
  message_type : String
  message_body : Option String
  raw_payload : WhatsAppWebhookPayload
deriving DecidableEq, Repr

/-! ## Payload normalizer (src/lib/webhook-processor.ts, second revision) -/

/-- createUniqueEventId: messageId, messageType and timestamp joined by
underscores. -/
def createUniqueEventId (messageId : String) (messageType : String)
    (timestamp : Option Int) : String :=
  messageId ++ "_" ++ messageType ++ "_" ++ jsNumToString timestamp

/-- Summary text of an interactive click, mirroring the dispatch inside
extractMessageData. -/
def interactiveBody (interactive : WhatsAppInteractive) : String :=
  if interactive.type == "button_reply" && interactive.button_reply.isSome then
    match interactive.button_reply with
    | some br => "Botão clicado: \"" ++ br.title ++ "\" (ID: " ++ br.id ++ ")"
    | none => ""
  else if interactive.type == "cta_url" then
    match interactive.cta_url_reply.orElse (fun _ => interactive.cta_reply) with
    | some ctaReply =>
      "CTA URL clicado: \"" ++ ctaReply.title ++ "\" (Payload: " ++ ctaReply.payload ++ ")"
    | none => "CTA URL clicado (dados não disponíveis)"
  else if interactive.type == "list_reply" && interactive.list_reply.isSome then
    match interactive.list_reply with
    | some lr => "Item selecionado: \"" ++ lr.title ++ "\" (ID: " ++ lr.id ++ ")"
    | none => ""
  else
    "Interação do tipo: " ++ interactive.type

/-- Body dispatch of extractMessageData: the message_body derived from
the message type, null when no branch applies. -/
def extractMessageBody (message : WhatsAppMessage) : Option String :=
  if message.type == "text" && message.text.isSome then
    message.text.map (fun t => t.body)
  else if message.type == "image" && strTruthy (message.image.bind (fun m => m.caption)) then
    message.image.bind (fun m => m.caption)
  else if message.type == "video" && strTruthy (message.video.bind (fun m => m.caption)) then
    message.video.bind (fun m => m.caption)
  else if message.type == "document" && strTruthy (message.document.bind (fun m => m.caption)) then
    message.document.bind (fun m => m.caption)
  else if message.type == "location" && message.location.isSome then
    match message.location with
    | some loc =>
      some ("Location: " ++ loc.latitude ++ ", " ++ loc.longitude ++
        (if strTruthy loc.name then " - " ++ jsStrOr loc.name "" else ""))
    | none => none
  else if message.type == "interactive" && message.interactive.isSome then
    match message.interactive with
    | some interactive => some (interactiveBody interactive)
    | none => none
  else
    none

/-- extractMessageData: one normalized record per inbound message. -/
def extractMessageData (message : WhatsAppMessage) (phoneNumberId : String)
    (rawPayload : WhatsAppWebhookPayload) : WhatsAppMessageData :=
  let timestamp := jsParseInt message.timestamp
  { message_id := createUniqueEventId message.id message.type timestamp
    from_number := message.«from»
    to_number := phoneNumberId
    timestamp := timestamp
    message_type := message.type
    message_body := extractMessageBody message
    raw_payload := rawPayload }

/-- extractStatusData: one normalized record per delivery status. -/
def extractStatusData (status : WhatsAppStatus) (phoneNumberId : String)
    (rawPayload : WhatsAppWebhookPayload) : WhatsAppMessageData :=
  let timestamp := jsParseInt status.timestamp
  { message_id := createUniqueEventId status.id status.status timestamp
    from_number := status.recipient_id
    to_number := phoneNumberId
    timestamp := timestamp
    message_type := status.status
    message_body := none
    raw_payload := rawPayload }

/-- The known change-value fields the catch-all skips. -/
def knownFields : List String :=
  ["messages", "statuses", "contacts", "metadata", "messaging_product"]

/-- Timestamp of a synthesized event: parseInt of a truthy timestamp
field, else Math.floor(Date.now() / 1000). -/
def unknownItemTimestamp (now : Nat) (item : UnknownItem) : Option Int :=
  if strTruthy item.timestamp then jsParseInt (jsStrOr item.timestamp "")
  else some ((now / 1000 : Nat) : Int)

/-- Base id of a synthesized array-element event: the id field when
truthy, else an id built from the field name, index and Date.now(). -/
def unknownArrayItemBaseId (now : Nat) (field : String) (i : Nat)
    (item : UnknownItem) : String :=
  if strTruthy item.id then jsStrOr item.id ""
  else "unknown_" ++ field ++ "_" ++ natDecimalStr i ++ "_" ++ natDecimalStr now

/-- Base id of a synthesized bare-object event. -/
def unknownObjectBaseId (now : Nat) (field : String) (item : UnknownItem) : String :=
  if strTruthy item.id then jsStrOr item.id ""
  else "unknown_" ++ field ++ "_" ++ natDecimalStr now

/-- Sender of a synthesized event: first truthy of from, recipient_id,
wa_id, else the placeholder unknown. -/
def unknownItemFrom (item : UnknownItem) : String :=
  jsStrOr item.«from» (jsStrOr item.recipient_id (jsStrOr item.wa_id "unknown"))

/-- Synthesized event for one element of an array-valued unrecognized
field. -/
def unknownArrayItemEvent (rawPayload : WhatsAppWebhookPayload) (now : Nat)
    (phoneNumberId field : String) (i : Nat) (item : UnknownItem) : WhatsAppMessageData :=
  let timestamp := unknownItemTimestamp now item
  { message_id := createUniqueEventId (unknownArrayItemBaseId now field i item) field timestamp
    from_number := unknownItemFrom item
    to_number := phoneNumberId
    timestamp := timestamp
    message_type := field
    message_body := none
    raw_payload := rawPayload }

/-- Synthesized event for a bare-object-valued unrecognized field. -/
def unknownObjectEvent (rawPayload : WhatsAppWebhookPayload) (now : Nat)
    (phoneNumberId field : String) (item : UnknownItem) : WhatsAppMessageData :=
  let timestamp := unknownItemTimestamp now item
  { message_id := createUniqueEventId (unknownObjectBaseId now field item) field timestamp
    from_number := unknownItemFrom item
    to_number := phoneNumberId
    timestamp := timestamp
    message_type := field
    message_body := none
    raw_payload := rawPayload }

/-- Events synthesized from one unrecognized change-value field. -/
def unknownFieldEvents (rawPayload : WhatsAppWebhookPayload) (now : Nat)
    (phoneNumberId field : String) : UnknownValue → List WhatsAppMessageData
  | .arr items =>
    items.enum.map (fun p => unknownArrayItemEvent rawPayload now phoneNumberId field p.1 p.2)
  | .obj item => [unknownObjectEvent rawPayload now phoneNumberId field item]
  | .prim => []

/-- All events of one change value, in source order: messages, then
statuses, then the unrecognized fields in key order. -/
def changeValueEvents (rawPayload : WhatsAppWebhookPayload) (now : Nat)
    (phoneNumberId : String) (v : WhatsAppWebhookValue) : List WhatsAppMessageData :=
  (v.messages.getD []).map (fun m => extractMessageData m phoneNumberId rawPayload)
    ++ (v.statuses.getD []).map (fun s => extractStatusData s phoneNumberId rawPayload)
    ++ ((v.extra.filter (fun fv => !(knownFields.contains fv.1))).map
        (fun fv => unknownFieldEvents rawPayload now phoneNumberId fv.1 fv.2)).flatten

/-- Inner loop of processWebhookPayload over the changes of one entry.
Reading change.value.metadata.phone_number_id throws a TypeError when
metadata is absent, which aborts the whole call: that is the none
result. -/
def processChangesLoop (rawPayload : WhatsAppWebhookPayload) (now : Nat) :
    List WhatsAppWebhookChange → List WhatsAppMessageData →
    Option (List WhatsAppMessageData)
  | [], acc => some acc
  | change :: rest, acc =>
    match change.value.metadata with
    | none => none
    | some md =>
      processChangesLoop rawPayload now rest
        (acc ++ changeValueEvents rawPayload now md.phone_number_id change.value)

/-- Outer loop of processWebhookPayload over the entries. -/
def processEntriesLoop (rawPayload : WhatsAppWebhookPayload) (now : Nat) :
    List WhatsAppWebhookEntry → List WhatsAppMessageData →
    Option (List WhatsAppMessageData)
  | [], acc => some acc
  | e :: rest, acc =>
    match processChangesLoop rawPayload now e.changes acc with
    | none => none
    | some acc2 => processEntriesLoop rawPayload now rest acc2

/-- processWebhookPayload: all events of the payload, or none when the
TypeScript code would throw.  now is Date.now() in milliseconds. -/
def processWebhookPayload (payload : WhatsAppWebhookPayload) (now : Nat) :
    Option (List WhatsAppMessageData) :=
  processEntriesLoop payload now payload.entry []

/-! ## Response configuration (src/unnamed/part_006) -/

/-- interface ResponseConfig of the configuration module. -/
structure ResponseConfig where
  id : String
  default_message : String
  time_window_hours : Int
  enabled : Bool
  created_at : String
  updated_at : String
deriving DecidableEq, Repr

/-- Module-level cache slot: the cached lookup result and the Date.now()
at which it was stored. -/
structure ConfigCacheEntry where
  config : Option ResponseConfig
  timestamp : Nat
deriving DecidableEq, Repr

/-- Outcome of one underlying database read attempt, as distinguished by
the code: a row, the PGRST116 no-row condition, a retryable
connection-class error, any other error, or the manual 3 second
timeout. -/
inductive ConfigReadOutcome where
  | success (config : ResponseConfig)
  | notFound
  | connError
  | otherError
  | timeout
deriving DecidableEq, Repr

/-- Result of one getResponseConfig call: the returned value, the cache
slot afterwards, and how many underlying reads the call issued. -/
structure ConfigFetchResult where
  result : Option ResponseConfig
  newCache : Option ConfigCacheEntry
  reads : Nat
deriving DecidableEq, Repr

def CACHE_TTL : Nat := 30000

/-- The retry loop of getResponseConfig.  db gives the outcome of the
read issued on each attempt index; fuel is the number of remaining
iterations (the caller passes maxRetries + 1, which the loop never
exhausts because a connection error on the last attempt returns).
Every iteration entered issues exactly one read. -/
def getConfigLoop (db : Nat → ConfigReadOutcome) (now : Nat)
    (cache0 : Option ConfigCacheEntry) (maxRetries : Nat) :
    Nat → Nat → ConfigFetchResult
  | _, 0 => ⟨none, cache0, 0⟩
  | attempt, fuel + 1 =>
    match db attempt with
    | .timeout =>
      { result := match cache0 with
          | some entry => entry.config
          | none => none
        newCache := cache0
        reads := 1 }
    | .notFound => ⟨none, some ⟨none, now⟩, 1⟩
    | .connError =>
      if attempt < maxRetries then
        let r := getConfigLoop db now cache0 maxRetries (attempt + 1) fuel
        { r with reads := r.reads + 1 }
      else ⟨none, cache0, 1⟩
    | .otherError => ⟨none, cache0, 1⟩
    | .success c =>
      if c.default_message == "" || jsTrim c.default_message == "" then
        ⟨none, cache0, 1⟩
      else ⟨some c, some ⟨some c, now⟩, 1⟩

/-- getResponseConfig: return the cached value when its age is below
CACHE_TTL, otherwise run the read loop. -/
def getResponseConfig (db : Nat → ConfigReadOutcome) (now : Nat)
    (cache : Option ConfigCacheEntry) (maxRetries : Nat := 2) : ConfigFetchResult :=
  match cache with
  | some entry =>
    if now - entry.timestamp < CACHE_TTL then ⟨entry.config, cache, 0⟩
    else getConfigLoop db now cache maxRetries 0 (maxRetries + 1)
  | none => getConfigLoop db now cache maxRetries 0 (maxRetries + 1)

/-! ## Auto-reply dispatch in the webhook route
(src/app/api/webhook/route.ts, processAutomaticResponses) -/

/-- Parameters of one outbound send (interface SendMessageParams). -/
structure SendMessageParams where
  phoneNumberId : String
  «to» : String
  message : String
deriving DecidableEq, Repr

/-- The inline event filter of processAutomaticResponses: text messages
or interactive clicks whose body mentions a clicked button, with
delivery status updates excluded. -/
def routeClientMessageFilter (event : WhatsAppMessageData) : Bool :=
  let isClientMessage :=
    event.message_type == "text" ||
      (event.message_type == "interactive" &&
        (match event.message_body with
         | some b => jsIncludes b "Botão clicado"
         | none => false))
  let isStatusUpdate := ["sent", "delivered", "read", "failed"].contains event.message_type
  isClientMessage && !isStatusUpdate

/-- The outbound sends attempted by processAutomaticResponses: nothing
without a configuration or without a phone_number_id in the first
change of the first entry; otherwise one send per event passing the
inline filter, to that event sender, with the configured message.
Note: the filter never consults event.to_number. -/
def processAutomaticResponsesSends (responseConfig : Option ResponseConfig)
    (payload : WhatsAppWebhookPayload) (eventsData : List WhatsAppMessageData) :
    List SendMessageParams :=
  match responseConfig with
  | none => []
  | some cfg =>
    let phoneNumberId :=
      ((payload.entry.head?.bind (fun e => e.changes.head?)).bind
        (fun c => c.value.metadata)).map (fun md => md.phone_number_id)
    if !(strTruthy phoneNumberId) then []
    else
      (eventsData.filter routeClientMessageFilter).map
        (fun event => ⟨jsStrOr phoneNumberId "", event.from_number, cfg.default_message⟩)

/-! ## Decision unit shouldSendAutoReply (src/unnamed/part_005) -/

def REPLY_MESSAGE_TYPES : List String :=
  ["text", "interactive", "button", "image", "audio", "video", "document", "location"]

def STATUS_TYPES : List String :=
  ["sent", "delivered", "read", "failed", "deleted"]

/-- shouldSendAutoReply: pass/no-pass decision for one normalized event.
businessPhoneId is process.env.WHATSAPP_PHONE_NUMBER_ID, undefined or
empty when unconfigured. -/
def shouldSendAutoReply (businessPhoneId : Option String)
    (messageData : WhatsAppMessageData) : Bool :=
  if STATUS_TYPES.contains messageData.message_type then false
  else if messageData.message_type == "raw_webhook" then false
  else if !(REPLY_MESSAGE_TYPES.contains messageData.message_type) then false
  else if strTruthy businessPhoneId &&
      messageData.from_number == jsStrOr businessPhoneId "" then false
  else if strTruthy businessPhoneId &&
      messageData.to_number != jsStrOr businessPhoneId "" then false
  else if messageData.from_number == "" || messageData.from_number == "unknown" ||
      decide (messageData.from_number.length < 10) then false
  else true

/-! ## GET verification handler (src/app/api/webhook/route.ts) -/

/-- Status and body of an HTTP response built by the handler. -/
structure HttpResponse where
  status : Nat
  body : String
deriving DecidableEq, Repr

/-- The GET webhook verification handler.  verifyToken is the
WEBHOOK_VERIFY_TOKEN environment variable; mode, token and challenge
are the hub.mode, hub.verify_token and hub.challenge query parameters
(none when absent). -/
def GET (verifyToken : Option String) (mode token challenge : Option String) :
    HttpResponse :=
  if !(strTruthy verifyToken) then ⟨500, "Server configuration error"⟩
  else if !(strTruthy mode) || !(strTruthy token) || !(strTruthy challenge) then
    ⟨400, "Missing required parameters"⟩
  else if jsStrOr mode "" == "subscribe" &&
      jsTrim (jsStrOr token "") == jsTrim (jsStrOr verifyToken "") then
    ⟨200, jsStrOr challenge ""⟩
  else ⟨403, "Forbidden"⟩

/-! ## Outbound sender adapter (src/lib/whatsapp-sender.ts) -/

/-- Vendor error object embedded in a response body.  The interface
declares message as a required string; the code additionally treats an
empty message as absent. -/
structure WhatsAppApiError where
  message : String
deriving DecidableEq, Repr

structure WhatsAppApiMessage where
  id : String
deriving DecidableEq, Repr

/-- Parsed vendor response body; messages may be absent at runtime,
hence the Option. -/
structure WhatsAppApiResponse where
  messages : Option (List WhatsAppApiMessage)
  error : Option WhatsAppApiError
deriving DecidableEq, Repr

/-- Body of an HTTP response as the sender sees it: raw text that does
not parse as JSON, or a parsed response. -/
inductive ResponseBody where
  | unparseable (raw : String)
  | json (data : WhatsAppApiResponse)
deriving DecidableEq, Repr

/-- Outcome of the fetch call: a thrown network error, or a response
with a status code and body. -/
inductive FetchOutcome where
  | fetchError (msg : String)
  | response (status : Nat) (body : ResponseBody)
deriving DecidableEq, Repr

/-- Result of sendWhatsAppMessage. -/
structure SendResult where
  success : Bool
  messageId : Option String
  error : Option String
deriving DecidableEq, Repr

/-- response.ok of the fetch API: status in the 2xx range. -/
def httpOk (status : Nat) : Bool :=
  decide (200 ≤ status) && decide (status < 300)

/-- sendWhatsAppMessage, with the environment token and the network
outcome as explicit inputs. -/
def sendWhatsAppMessage (accessToken : Option String)
    (params : SendMessageParams) (outcome : FetchOutcome) : SendResult :=
  if !(strTruthy accessToken) then
    ⟨false, none, some "WHATSAPP_ACCESS_TOKEN não está configurado"⟩
  else if params.phoneNumberId == "" || params.«to» == "" || params.message == "" then
    ⟨false, none, some "Parâmetros inválidos para envio de mensagem"⟩
  else
    match outcome with
    | .fetchError msg => ⟨false, none, some msg⟩
    | .response status body =>
      match body with
      | .unparseable raw =>
        ⟨false, none, some ("Resposta inválida da API: " ++ raw.take 200)⟩
      | .json data =>
        if !(httpOk status) || data.error.isSome then
          let errorMessage :=
            match data.error with
            | some err =>
              if err.message == "" then "HTTP " ++ natDecimalStr status else err.message
            | none => "HTTP " ++ natDecimalStr status
          ⟨false, none, some errorMessage⟩
        else
          ⟨true, ((data.messages.getD []).head?).map (fun m => m.id), none⟩

/-! ## Specification-side definitions

These definitions follow the wording of the specification (sections 4.1
and 8) and of the tested properties; the theorems below compare them
with the embedded code. -/

/-- The unrecognized change-value fields: those outside the known set. -/
def unknownExtraFields (v : WhatsAppWebhookValue) : List (String × UnknownValue) :=
  v.extra.filter (fun fv => !(knownFields.contains fv.1))

/-- Element count of one unrecognized field value as the specification
counts it: the array length for an array, one for a bare object. -/
def unknownValueCount : UnknownValue → Nat
  | .arr items => items.length
  | .obj _ => 1
  | .prim => 0

/-- Expected number of events of one change, per the specification:
message-list length plus status-list length plus the element counts of
the unrecognized fields. -/
def changeExpectedCount (v : WhatsAppWebhookValue) : Nat :=
  (v.messages.getD []).length + (v.statuses.getD []).length +
    ((unknownExtraFields v).map (fun fv => unknownValueCount fv.2)).sum

/-- Expected number of events of a payload: the sum over every change
in every entry. -/
def payloadExpectedCount (payload : WhatsAppWebhookPayload) : Nat :=
  (payload.entry.map (fun e =>
    (e.changes.map (fun c => changeExpectedCount c.value)).sum)).sum

/-- A payload is well formed when every change value carries a metadata
object, so the processor never throws on it. -/
def payloadWellFormed (payload : WhatsAppWebhookPayload) : Bool :=
  payload.entry.all (fun e => e.changes.all (fun c => c.value.metadata.isSome))

/-- The events of one change as they appear in the processed output,
with the metadata lookup made explicit (empty on a change the processor
would throw on; under payloadWellFormed that case never occurs). -/
def changeEventsWF (rawPayload : WhatsAppWebhookPayload) (now : Nat)
    (c : WhatsAppWebhookChange) : List WhatsAppMessageData :=
  match c.value.metadata with
  | some md => changeValueEvents rawPayload now md.phone_number_id c.value
  | none => []

/-- The flat event list the specification prescribes: all changes of all
entries, concatenated in source order. -/
def expectedEventList (payload : WhatsAppWebhookPayload) (now : Nat) :
    List WhatsAppMessageData :=
  (payload.entry.map (fun e => (e.changes.map (changeEventsWF payload now)).flatten)).flatten

/-- The identifying triple behind one event id: the base id, the kind,
and the rendered numeric timestamp, exactly the three strings that
createUniqueEventId joins with underscores. -/
abbrev EventKey : Type := String × String × String

/-- createUniqueEventId applied to a key. -/
def keyToEventId (k : EventKey) : String :=
  k.1 ++ "_" ++ k.2.1 ++ "_" ++ k.2.2

/-- Keys of the events of one unrecognized field. -/
def unknownFieldKeys (now : Nat) (field : String) : UnknownValue → List EventKey
  | .arr items => items.enum.map (fun p =>
      (unknownArrayItemBaseId now field p.1 p.2, field,
        jsNumToString (unknownItemTimestamp now p.2)))
  | .obj item =>
    [(unknownObjectBaseId now field item, field,
      jsNumToString (unknownItemTimestamp now item))]
  | .prim => []

/-- Keys of the events of one change, mirroring changeValueEvents
(the phone number id plays no role in any key). -/
def changeEventKeys (now : Nat) (v : WhatsAppWebhookValue) : List EventKey :=
  (v.messages.getD []).map (fun m =>
      (m.id, m.type, jsNumToString (jsParseInt m.timestamp)))
    ++ (v.statuses.getD []).map (fun s =>
      (s.id, s.status, jsNumToString (jsParseInt s.timestamp)))
    ++ ((v.extra.filter (fun fv => !(knownFields.contains fv.1))).map
        (fun fv => unknownFieldKeys now fv.1 fv.2)).flatten

/-- Keys of all events of a payload, in source order. -/
def payloadEventKeys (payload : WhatsAppWebhookPayload) (now : Nat) : List EventKey :=
  (payload.entry.map (fun e =>
    (e.changes.map (fun c => changeEventKeys now c.value)).flatten)).flatten

/-- The summary pattern the specification claims for location messages:
latitude, a comma, longitude, optionally followed by a dash and the
location name, with no other text. -/
def locationSummarySpecMatch (loc : LocationObject) (s : String) : Bool :=
  s == loc.latitude ++ ", " ++ loc.longitude ||
    (match loc.name with
     | some n => s == loc.latitude ++ ", " ++ loc.longitude ++ " - " ++ n
     | none => false)

/-- An unknown-field element carries everything the synthesizer needs,
so its event does not depend on the clock. -/
def unknownItemDet (item : UnknownItem) : Bool :=
  strTruthy item.id && strTruthy item.timestamp

def unknownValueDet : UnknownValue → Bool
  | .arr items => items.all unknownItemDet
  | .obj item => unknownItemDet item
  | .prim => true

/-- Every element of every unrecognized change-value field of the
payload carries both an id and a timestamp. -/
def payloadDet (payload : WhatsAppWebhookPayload) : Bool :=
  payload.entry.all (fun e => e.changes.all (fun c =>
    (unknownExtraFields c.value).all (fun fv => unknownValueDet fv.2)))

/-! ## Helper lemmas -/

/-- A string with no underscore character. -/
def noUnderscore (s : String) : Bool :=
  !(s.data.contains '_')

theorem noUnderscore_iff (s : String) : noUnderscore s = true ↔ '_' ∉ s.data := by
  simp [noUnderscore, List.contains, List.elem_iff]

theorem string_eq_of_data_eq (a b : String) (h : a.data = b.data) : a = b :=
  congrArg String.mk h

theorem natToDecimalCore_mem (fuel : Nat) :
    ∀ (n : Nat) (acc : List Char) (c : Char),
      c ∈ natToDecimalCore fuel n acc → c ∈ acc ∨ c.isDigit = true := by
  induction fuel with
  | zero => intro n acc c hc; exact Or.inl hc
  | succ fuel ih =>
    intro n acc c hc
    simp only [natToDecimalCore] at hc
    have hd : (decDigitChar (n % 10)).isDigit = true := by
      have h10 : n % 10 < 10 := Nat.mod_lt _ (by omega)
      interval_cases h : (n % 10) <;> decide
    by_cases hz : (n / 10 == 0) = true
    · rw [if_pos hz] at hc
      rcases List.mem_cons.mp hc with h | h
      · exact Or.inr (h ▸ hd)
      · exact Or.inl h
    · rw [if_neg hz] at hc
      rcases ih (n / 10) (decDigitChar (n % 10) :: acc) c hc with h | h
      · rcases List.mem_cons.mp h with h2 | h2
        · exact Or.inr (h2 ▸ hd)
        · exact Or.inl h2
      · exact Or.inr h

theorem natDecimalStr_noUnderscore (n : Nat) : noUnderscore (natDecimalStr n) = true := by
  rw [noUnderscore_iff]
  intro hmem
  rcases natToDecimalCore_mem (n + 1) n [] '_' hmem with h | h
  · exact absurd h (List.not_mem_nil _)
  · exact absurd h (by decide)

theorem jsNumToString_noUnderscore (t : Option Int) :
    noUnderscore (jsNumToString t) = true := by
  cases t with
  | none => decide
  | some i =>
    simp only [jsNumToString]
    by_cases hi : i < 0
    · rw [if_pos hi, noUnderscore_iff]
      intro hmem
      have hcons : ("-" ++ natDecimalStr i.natAbs).data =
          '-' :: (natDecimalStr i.natAbs).data := rfl
      rw [hcons] at hmem
      rcases List.mem_cons.mp hmem with h2 | h2
      · exact absurd h2 (by decide)
      · exact absurd h2 ((noUnderscore_iff _).mp (natDecimalStr_noUnderscore i.natAbs))
    · rw [if_neg hi]
      exact natDecimalStr_noUnderscore i.natAbs

/-- Splitting at a separator with an underscore-free tail is injective. -/
theorem append_underscore_inj :
    ∀ (a a2 b b2 : List Char), '_' ∉ b → '_' ∉ b2 →
      a ++ '_' :: b = a2 ++ '_' :: b2 → a = a2 ∧ b = b2 := by
  intro a
  induction a with
  | nil =>
    intro a2 b b2 hb hb2 h
    cases a2 with
    | nil => simp_all
    | cons c a2 =>
      exfalso
      simp only [List.nil_append, List.cons_append, List.cons.injEq] at h
      exact hb (h.2 ▸ List.mem_append_right a2 (List.mem_cons_self '_' b2))
  | cons c a ih =>
    intro a2 b b2 hb hb2 h
    cases a2 with
    | nil =>
      exfalso
      simp only [List.cons_append, List.nil_append, List.cons.injEq] at h
      exact hb2 (h.2.symm ▸ List.mem_append_right a (List.mem_cons_self '_' b))
    | cons c2 a2 =>
      simp only [List.cons_append, List.cons.injEq] at h
      obtain ⟨rfl, h2⟩ := h
      obtain ⟨rfl, rfl⟩ := ih a2 b b2 hb hb2 h2
      exact ⟨rfl, rfl⟩

/-- createUniqueEventId is injective on keys whose kind and rendered
timestamp contain no underscore (the base id may contain one). -/
theorem keyToEventId_inj (k1 k2 : EventKey)
    (h1 : noUnderscore k1.2.1 = true) (h2 : noUnderscore k1.2.2 = true)
    (h3 : noUnderscore k2.2.1 = true) (h4 : noUnderscore k2.2.2 = true)
    (h : keyToEventId k1 = keyToEventId k2) : k1 = k2 := by
  obtain ⟨a, b, c⟩ := k1
  obtain ⟨a2, b2, c2⟩ := k2
  rw [noUnderscore_iff] at h1 h2 h3 h4
  have hdata : (a.data ++ '_' :: b.data) ++ '_' :: c.data =
      (a2.data ++ '_' :: b2.data) ++ '_' :: c2.data := by
    have hd := congrArg String.data h
    simp only [keyToEventId] at hd
    have hrw : ∀ (x y z : String),
        (x ++ "_" ++ y ++ "_" ++ z).data = (x.data ++ '_' :: y.data) ++ '_' :: z.data := by
      intro x y z
      show x.data ++ "_".data ++ y.data ++ "_".data ++ z.data =
        (x.data ++ '_' :: y.data) ++ '_' :: z.data
      simp
    rw [hrw, hrw] at hd
    exact hd
  obtain ⟨houter, hc⟩ := append_underscore_inj _ _ _ _ h2 h4 hdata
  obtain ⟨ha, hb⟩ := append_underscore_inj _ _ _ _ h1 h3 houter
  have ea : a = a2 := string_eq_of_data_eq _ _ ha
  have eb : b = b2 := string_eq_of_data_eq _ _ hb
  have ec : c = c2 := string_eq_of_data_eq _ _ hc
  rw [ea, eb, ec]

theorem processChangesLoop_wf (rawPayload : WhatsAppWebhookPayload) (now : Nat) :
    ∀ (cs : List WhatsAppWebhookChange) (acc : List WhatsAppMessageData),
      (∀ c ∈ cs, c.value.metadata.isSome = true) →
      processChangesLoop rawPayload now cs acc =
        some (acc ++ (cs.map (changeEventsWF rawPayload now)).flatten) := by
  intro cs
  induction cs with
  | nil => intro acc _; simp [processChangesLoop]
  | cons c cs ih =>
    intro acc h
    have hc := h c (List.mem_cons_self c cs)
    obtain ⟨md, hmd⟩ := Option.isSome_iff_exists.mp hc
    simp only [processChangesLoop, hmd]
    rw [ih _ (fun x hx => h x (List.mem_cons_of_mem c hx))]
    simp [changeEventsWF, hmd, List.append_assoc]

theorem processEntriesLoop_wf (rawPayload : WhatsAppWebhookPayload) (now : Nat) :
    ∀ (es : List WhatsAppWebhookEntry) (acc : List WhatsAppMessageData),
      (∀ e ∈ es, ∀ c ∈ e.changes, c.value.metadata.isSome = true) →
      processEntriesLoop rawPayload now es acc =
        some (acc ++
          (es.map (fun e => (e.changes.map (changeEventsWF rawPayload now)).flatten)).flatten) := by
  intro es
  induction es with
  | nil => intro acc _; simp [processEntriesLoop]
  | cons e es ih =>
    intro acc h
    simp only [processEntriesLoop]
    rw [processChangesLoop_wf rawPayload now e.changes acc (h e (List.mem_cons_self e es))]
    dsimp only
    rw [ih _ (fun x hx => h x (List.mem_cons_of_mem e hx))]
    simp [List.append_assoc]

/-- On a well-formed payload the processor returns exactly the expected
flat event list. -/
theorem processWebhookPayload_wf (payload : WhatsAppWebhookPayload) (now : Nat)
    (hwf : payloadWellFormed payload = true) :
    processWebhookPayload payload now = some (expectedEventList payload now) := by
  have h : ∀ e ∈ payload.entry, ∀ c ∈ e.changes, c.value.metadata.isSome = true := by
    intro e he c hc
    have := (List.all_eq_true.mp hwf) e he
    exact (List.all_eq_true.mp this) c hc
  rw [processWebhookPayload, processEntriesLoop_wf payload now payload.entry [] h]
  simp [expectedEventList]

/-- Conversely, a successful run implies every change carried metadata. -/
theorem processChangesLoop_some_wf (rawPayload : WhatsAppWebhookPayload) (now : Nat) :
    ∀ (cs : List WhatsAppWebhookChange) (acc res : List WhatsAppMessageData),
      processChangesLoop rawPayload now cs acc = some res →
      ∀ c ∈ cs, c.value.metadata.isSome = true := by
  intro cs
  induction cs with
  | nil => intro acc res _ c hc; exact absurd hc (List.not_mem_nil c)
  | cons c cs ih =>
    intro acc res h x hx
    simp only [processChangesLoop] at h
    cases hmd : c.value.metadata with
    | none => rw [hmd] at h; exact absurd h (by simp)
    | some md =>
      rw [hmd] at h
      rcases List.mem_cons.mp hx with rfl | hx2
      · simp [hmd]
      · exact ih _ res h x hx2

theorem processEntriesLoop_some_wf (rawPayload : WhatsAppWebhookPayload) (now : Nat) :
    ∀ (es : List WhatsAppWebhookEntry) (acc res : List WhatsAppMessageData),
      processEntriesLoop rawPayload now es acc = some res →
      ∀ e ∈ es, ∀ c ∈ e.changes, c.value.metadata.isSome = true := by
  intro es
  induction es with
  | nil => intro acc res _ e he; exact absurd he (List.not_mem_nil e)
  | cons e es ih =>
    intro acc res h x hx
    simp only [processEntriesLoop] at h
    cases hcl : processChangesLoop rawPayload now e.changes acc with
    | none => rw [hcl] at h; exact absurd h (by simp)
    | some acc2 =>
      rw [hcl] at h
      rcases List.mem_cons.mp hx with rfl | hx2
      · exact processChangesLoop_some_wf rawPayload now x.changes acc acc2 hcl
      · exact ih _ res h x hx2

theorem processWebhookPayload_some_wf (payload : WhatsAppWebhookPayload) (now : Nat)
    (evs : List WhatsAppMessageData)
    (h : processWebhookPayload payload now = some evs) :
    payloadWellFormed payload = true := by
  rw [payloadWellFormed, List.all_eq_true]
  intro e he
  rw [List.all_eq_true]
  intro c hc
  exact processEntriesLoop_some_wf payload now payload.entry [] evs h e he c hc

theorem unknownFieldEvents_length (rawPayload : WhatsAppWebhookPayload) (now : Nat)
    (phoneNumberId field : String) (v : UnknownValue) :
    (unknownFieldEvents rawPayload now phoneNumberId field v).length = unknownValueCount v := by
  cases v <;> simp [unknownFieldEvents, unknownValueCount]

theorem changeValueEvents_length (rawPayload : WhatsAppWebhookPayload) (now : Nat)
    (phoneNumberId : String) (v : WhatsAppWebhookValue) :
    (changeValueEvents rawPayload now phoneNumberId v).length = changeExpectedCount v := by
  simp only [changeValueEvents, changeExpectedCount, unknownExtraFields,
    List.length_append, List.length_map, List.length_flatten, List.map_map]
  congr 2
  apply List.map_congr_left
  intro fv _
  simp only [Function.comp_apply]
  exact unknownFieldEvents_length rawPayload now phoneNumberId fv.1 fv.2

theorem expectedEventList_length (payload : WhatsAppWebhookPayload) (now : Nat)
    (hwf : payloadWellFormed payload = true) :
    (expectedEventList payload now).length = payloadExpectedCount payload := by
  have h : ∀ e ∈ payload.entry, ∀ c ∈ e.changes, c.value.metadata.isSome = true := by
    intro e he c hc
    have := (List.all_eq_true.mp hwf) e he
    exact (List.all_eq_true.mp this) c hc
  simp only [expectedEventList, payloadExpectedCount, List.length_flatten, List.map_map]
  congr 1
  apply List.map_congr_left
  intro e he
  simp only [Function.comp_apply, List.length_flatten, List.map_map]
  congr 1
  apply List.map_congr_left
  intro c hc
  obtain ⟨md, hmd⟩ := Option.isSome_iff_exists.mp (h e he c hc)
  simp only [Function.comp_apply, changeEventsWF, hmd]
  exact changeValueEvents_length payload now md.phone_number_id c.value

theorem unknownFieldEvents_msgIds (rawPayload : WhatsAppWebhookPayload) (now : Nat)
    (phoneNumberId field : String) (v : UnknownValue) :
    (unknownFieldEvents rawPayload now phoneNumberId field v).map (fun e => e.message_id) =
      (unknownFieldKeys now field v).map keyToEventId := by
  cases v with
  | arr items =>
    simp only [unknownFieldEvents, unknownFieldKeys, List.map_map]
    apply List.map_congr_left
    intro p _
    rfl
  | obj item => rfl
  | prim => rfl

theorem changeValueEvents_msgIds (rawPayload : WhatsAppWebhookPayload) (now : Nat)
    (phoneNumberId : String) (v : WhatsAppWebhookValue) :
    (changeValueEvents rawPayload now phoneNumberId v).map (fun e => e.message_id) =
      (changeEventKeys now v).map keyToEventId := by
  simp only [changeValueEvents, changeEventKeys, List.map_append, List.map_map,
    List.map_flatten]
  congr 1
  congr 1
  apply List.map_congr_left
  intro fv _
  simp only [Function.comp_apply]
  exact unknownFieldEvents_msgIds rawPayload now phoneNumberId fv.1 fv.2

theorem expectedEventList_msgIds (payload : WhatsAppWebhookPayload) (now : Nat)
    (hwf : payloadWellFormed payload = true) :
    (expectedEventList payload now).map (fun e => e.message_id) =
      (payloadEventKeys payload now).map keyToEventId := by
  have h : ∀ e ∈ payload.entry, ∀ c ∈ e.changes, c.value.metadata.isSome = true := by
    intro e he c hc
    have := (List.all_eq_true.mp hwf) e he
    exact (List.all_eq_true.mp this) c hc
  simp only [expectedEventList, payloadEventKeys, List.map_flatten, List.map_map]
  congr 1
  apply List.map_congr_left
  intro e he
  simp only [Function.comp_apply, List.map_flatten, List.map_map]
  congr 1
  apply List.map_congr_left
  intro c hc
  obtain ⟨md, hmd⟩ := Option.isSome_iff_exists.mp (h e he c hc)
  simp only [Function.comp_apply, changeEventsWF, hmd]
  exact changeValueEvents_msgIds payload now md.phone_number_id c.value

/-- Every key produced for a payload renders its timestamp component
with jsNumToString, so that component never contains an underscore. -/
theorem payloadEventKeys_ts_noUnderscore (payload : WhatsAppWebhookPayload) (now : Nat) :
    ∀ k ∈ payloadEventKeys payload now, noUnderscore k.2.2 = true := by
  intro k hk
  rw [payloadEventKeys, List.mem_flatten] at hk
  obtain ⟨l, hl, hkl⟩ := hk
  rw [List.mem_map] at hl
  obtain ⟨e, he, rfl⟩ := hl
  rw [List.mem_flatten] at hkl
  obtain ⟨l2, hl2, hkl2⟩ := hkl
  rw [List.mem_map] at hl2
  obtain ⟨c, hc, rfl⟩ := hl2
  rw [changeEventKeys] at hkl2
  rcases List.mem_append.mp hkl2 with hk2 | hk2
  · rcases List.mem_append.mp hk2 with hk3 | hk3
    · obtain ⟨m, hm, rfl⟩ := List.mem_map.mp hk3
      exact jsNumToString_noUnderscore _
    · obtain ⟨s, hs, rfl⟩ := List.mem_map.mp hk3
      exact jsNumToString_noUnderscore _
  · rw [List.mem_flatten] at hk2
    obtain ⟨l3, hl3, hkl3⟩ := hk2
    rw [List.mem_map] at hl3
    obtain ⟨fv, hfv, rfl⟩ := hl3
    cases hv : fv.2 with
    | arr items =>
      rw [hv] at hkl3
      simp only [unknownFieldKeys, List.mem_map] at hkl3
      obtain ⟨p, hp, rfl⟩ := hkl3
      exact jsNumToString_noUnderscore _
    | obj item =>
      rw [hv] at hkl3
      simp only [unknownFieldKeys, List.mem_singleton] at hkl3
      rw [hkl3]
      exact jsNumToString_noUnderscore _
    | prim =>
      rw [hv] at hkl3
      exact absurd hkl3 (List.not_mem_nil k)

theorem unknownArrayItemEvent_det (rawPayload : WhatsAppWebhookPayload) (n1 n2 : Nat)
    (phoneNumberId field : String) (i : Nat) (item : UnknownItem)
    (h : unknownItemDet item = true) :
    unknownArrayItemEvent rawPayload n1 phoneNumberId field i item =
      unknownArrayItemEvent rawPayload n2 phoneNumberId field i item := by
  rw [unknownItemDet, Bool.and_eq_true] at h
  obtain ⟨h1, h2⟩ := h
  simp [unknownArrayItemEvent, unknownArrayItemBaseId, unknownItemTimestamp, h1, h2]

theorem unknownObjectEvent_det (rawPayload : WhatsAppWebhookPayload) (n1 n2 : Nat)
    (phoneNumberId field : String) (item : UnknownItem)
    (h : unknownItemDet item = true) :
    unknownObjectEvent rawPayload n1 phoneNumberId field item =
      unknownObjectEvent rawPayload n2 phoneNumberId field item := by
  rw [unknownItemDet, Bool.and_eq_true] at h
  obtain ⟨h1, h2⟩ := h
  simp [unknownObjectEvent, unknownObjectBaseId, unknownItemTimestamp, h1, h2]

theorem unknownFieldEvents_det (rawPayload : WhatsAppWebhookPayload) (n1 n2 : Nat)
    (phoneNumberId field : String) (v : UnknownValue)
    (h : unknownValueDet v = true) :
    unknownFieldEvents rawPayload n1 phoneNumberId field v =
      unknownFieldEvents rawPayload n2 phoneNumberId field v := by
  cases v with
  | arr items =>
    simp only [unknownFieldEvents]
    apply List.map_congr_left
    intro p hp
    have hdet := (List.all_eq_true.mp h) p.2 (List.snd_mem_of_mem_enum hp)
    exact unknownArrayItemEvent_det rawPayload n1 n2 phoneNumberId field p.1 p.2 hdet
  | obj item =>
    simp only [unknownFieldEvents]
    rw [unknownObjectEvent_det rawPayload n1 n2 phoneNumberId field item h]
  | prim => rfl

theorem changeValueEvents_det (rawPayload : WhatsAppWebhookPayload) (n1 n2 : Nat)
    (phoneNumberId : String) (v : WhatsAppWebhookValue)
    (h : (unknownExtraFields v).all (fun fv => unknownValueDet fv.2) = true) :
    changeValueEvents rawPayload n1 phoneNumberId v =
      changeValueEvents rawPayload n2 phoneNumberId v := by
  simp only [changeValueEvents]
  congr 1
  congr 1
  apply List.map_congr_left
  intro fv hfv
  exact unknownFieldEvents_det rawPayload n1 n2 phoneNumberId fv.1 fv.2
    ((List.all_eq_true.mp h) fv hfv)

theorem processChangesLoop_det (rawPayload : WhatsAppWebhookPayload) (n1 n2 : Nat) :
    ∀ (cs : List WhatsAppWebhookChange) (acc : List WhatsAppMessageData),
      (∀ c ∈ cs, (unknownExtraFields c.value).all (fun fv => unknownValueDet fv.2) = true) →
      processChangesLoop rawPayload n1 cs acc = processChangesLoop rawPayload n2 cs acc := by
  intro cs
  induction cs with
  | nil => intro acc _; rfl
  | cons c cs ih =>
    intro acc h
    simp only [processChangesLoop]
    cases hmd : c.value.metadata with
    | none => rfl
    | some md =>
      dsimp only
      rw [changeValueEvents_det rawPayload n1 n2 md.phone_number_id c.value
        (h c (List.mem_cons_self c cs))]
      exact ih _ (fun x hx => h x (List.mem_cons_of_mem c hx))

theorem processEntriesLoop_det (rawPayload : WhatsAppWebhookPayload) (n1 n2 : Nat) :
    ∀ (es : List WhatsAppWebhookEntry) (acc : List WhatsAppMessageData),
      (∀ e ∈ es, ∀ c ∈ e.changes,
        (unknownExtraFields c.value).all (fun fv => unknownValueDet fv.2) = true) →
      processEntriesLoop rawPayload n1 es acc = processEntriesLoop rawPayload n2 es acc := by
  intro es
  induction es with
  | nil => intro acc _; rfl
  | cons e es ih =>
    intro acc h
    simp only [processEntriesLoop]
    rw [processChangesLoop_det rawPayload n1 n2 e.changes acc (h e (List.mem_cons_self e es))]
    cases processChangesLoop rawPayload n2 e.changes acc with
    | none => rfl
    | some acc2 => exact ih _ (fun x hx => h x (List.mem_cons_of_mem e hx))

/-! ## Concrete example data used by witnesses and counterexamples -/

def exMetadata : WebhookMetadata := ⟨"5511000000000", "111"⟩

def exValue : WhatsAppWebhookValue :=
  { messaging_product := some "whatsapp", metadata := some exMetadata,
    contacts := none, messages := none, statuses := none, extra := [] }

def exTextMessage : WhatsAppMessage :=
  { «from» := "5511999999999", id := "wamid.A", timestamp := "1700000000", type := "text",
    text := some ⟨"hello"⟩, image := none, video := none, document := none,
    location := none, interactive := none }

def exStatus : WhatsAppStatus :=
  ⟨"wamid.A", "delivered", "1700000001", "5511999999999"⟩

/-- A message event and a status event sharing the vendor id wamid.A,
plus one unrecognized array field and one unrecognized object field. -/
def exPayloadMixed : WhatsAppWebhookPayload :=
  ⟨"whatsapp_business_account",
    [⟨"entry1",
      [⟨"messages",
        { exValue with
          messages := some [exTextMessage]
          statuses := some [exStatus]
          extra := [("referrals", .arr [⟨some "r1", some "1700000002", some "5511777777777", none, none⟩]),
                    ("promo", .obj ⟨some "p1", some "1700000003", none, none, some "5511666666666"⟩)] }⟩]⟩]⟩

/-- Two byte-identical status objects in one statuses array. -/
def exPayloadDupStatus : WhatsAppWebhookPayload :=
  ⟨"whatsapp_business_account",
    [⟨"entry1", [⟨"messages", { exValue with statuses := some [exStatus, exStatus] }⟩]⟩]⟩

/-- A change value that carries statuses but no metadata object. -/
def exPayloadNoMetadata : WhatsAppWebhookPayload :=
  ⟨"whatsapp_business_account",
    [⟨"entry1", [⟨"messages", { exValue with metadata := none, statuses := some [exStatus] }⟩]⟩]⟩

def exPayloadEmptyEntries : WhatsAppWebhookPayload :=
  ⟨"whatsapp_business_account", []⟩

/-- An unrecognized object field whose element has neither id nor
timestamp, so the synthesized event reads the clock. -/
def exPayloadClock : WhatsAppWebhookPayload :=
  ⟨"whatsapp_business_account",
    [⟨"entry1", [⟨"messages", { exValue with extra := [("promo", .obj ⟨none, none, none, none, none⟩)] }⟩]⟩]⟩

/-! ## C1 -/

/-- C1: on every well-formed payload (every change value carries a
metadata object) processWebhookPayload succeeds and returns exactly the
source-order concatenation, over every change of every entry, of its
message events, status events and unrecognized-field events — no event
dropped — and the number of events equals the specification sum:
message-list length plus status-list length plus the element count of
every unrecognized field. -/
theorem C1_count_and_order (payload : WhatsAppWebhookPayload) (now : Nat)
    (hwf : payloadWellFormed payload = true) :
    processWebhookPayload payload now = some (expectedEventList payload now) ∧
    (expectedEventList payload now).length = payloadExpectedCount payload :=
  ⟨processWebhookPayload_wf payload now hwf, expectedEventList_length payload now hwf⟩

theorem C1_witness :
    payloadWellFormed exPayloadMixed = true ∧
    processWebhookPayload exPayloadMixed 5000 = some (expectedEventList exPayloadMixed 5000) ∧
    (expectedEventList exPayloadMixed 5000).length = payloadExpectedCount exPayloadMixed :=
  ⟨by decide,
    (C1_count_and_order exPayloadMixed 5000 (by decide)).1,
    (C1_count_and_order exPayloadMixed 5000 (by decide)).2⟩

/-! ## C2 -/

/-- C2 counterexample: the claim asserts pairwise distinct event ids for
every payload, but a payload whose statuses array holds two identical
status objects produces two events with the same composite id. -/
theorem C2_counterexample :
    ¬ ((((processWebhookPayload exPayloadDupStatus 0).getD []).map
      (fun e => e.message_id)).Nodup) := by
  decide

/-- C2 (amended): the event ids produced from one payload are pairwise
distinct provided the underlying (base id, kind, rendered timestamp)
triples are pairwise distinct and no kind contains an underscore; this
covers in particular distinct events sharing one vendor message id,
such as a text message and a delivery status with the same id. -/
theorem C2_event_ids_nodup (payload : WhatsAppWebhookPayload) (now : Nat)
    (evs : List WhatsAppMessageData)
    (h : processWebhookPayload payload now = some evs)
    (hkeys : (payloadEventKeys payload now).Nodup)
    (hkinds : ∀ k ∈ payloadEventKeys payload now, noUnderscore k.2.1 = true) :
    (evs.map (fun e => e.message_id)).Nodup := by
  have hwf := processWebhookPayload_some_wf payload now evs h
  have hexp := processWebhookPayload_wf payload now hwf
  have hev : evs = expectedEventList payload now := Option.some.inj (h.symm.trans hexp)
  subst hev
  rw [expectedEventList_msgIds payload now hwf]
  apply List.Nodup.map_on _ hkeys
  intro x hx y hy hxy
  exact keyToEventId_inj x y (hkinds x hx) (payloadEventKeys_ts_noUnderscore payload now x hx)
    (hkinds y hy) (payloadEventKeys_ts_noUnderscore payload now y hy) hxy

theorem C2_witness :
    (((processWebhookPayload exPayloadMixed 0).getD []).map
      (fun e => e.message_id)).Nodup :=
  C2_event_ids_nodup exPayloadMixed 0 ((processWebhookPayload exPayloadMixed 0).getD [])
    (by decide) (by decide) (by decide)

/-! ## C3 -/

/-- C3: the claim says processWebhookPayload never raises and that a
change value with no metadata object defaults rather than erroring; the
code dereferences change.value.metadata.phone_number_id without a
guard, so such a change throws a TypeError and aborts processing
(modelled as the none result).  A payload with zero entries does yield
the empty event list. -/
theorem C3_missing_metadata_throws :
    processWebhookPayload exPayloadNoMetadata 0 = none ∧
    processWebhookPayload exPayloadEmptyEntries 0 = some [] := by
  exact ⟨rfl, rfl⟩

/-! ## C4 -/

def exConfig : ResponseConfig := ⟨"cfg1", "Hello", 24, true, "t0", "t0"⟩

/-- A payload whose first change carries the business line 111. -/
def exPayloadLine111 : WhatsAppWebhookPayload :=
  ⟨"whatsapp_business_account",
    [⟨"entry1", [⟨"messages", { exValue with messages := some [exTextMessage] }⟩]⟩]⟩

/-- A text event addressed to line 999, not the deployment line 111. -/
def exEventTo999 : WhatsAppMessageData :=
  ⟨"wamid.B_text_100", "5511888888888", "999", some 100, "text", some "hi", exPayloadLine111⟩

/-- C4 counterexample: the route-level auto-reply path attempts a send
for a text event whose recipient (999) differs from the deployment
business line (111): processAutomaticResponses never consults
to_number. -/
theorem C4_counterexample :
    exEventTo999.to_number ≠ "111" ∧
    processAutomaticResponsesSends (some exConfig) exPayloadLine111 [exEventTo999] =
      [⟨"111", "5511888888888", exConfig.default_message⟩] := by
  exact ⟨by decide, by decide⟩

/-- C4 (amended): the decision unit shouldSendAutoReply does return
no-pass for every event whose recipient differs from the configured
(non-empty) business line, regardless of every other field; the route
handler processAutomaticResponses, however, applies no recipient check
(see the counterexample). -/
theorem C4_shouldSendAutoReply_recipient_mismatch (businessPhoneId : String)
    (e : WhatsAppMessageData) (hb : businessPhoneId ≠ "")
    (hto : e.to_number ≠ businessPhoneId) :
    shouldSendAutoReply (some businessPhoneId) e = false := by
  have h1 : strTruthy (some businessPhoneId) = true := by
    simp [strTruthy, hb]
  have h2 : jsStrOr (some businessPhoneId) "" = businessPhoneId := by
    simp [jsStrOr, hb]
  rw [shouldSendAutoReply]
  split_ifs with hc1 hc2 hc3 hc4 hc5 hc6 <;> try rfl
  exfalso
  rw [h1, h2] at hc5
  simp only [Bool.true_and, bne_eq_false_iff_eq] at hc5
  rw [Bool.not_eq_true, bne_eq_false_iff_eq] at hc5
  exact hto hc5

theorem C4_witness :
    shouldSendAutoReply (some "111") exEventTo999 = false :=
  C4_shouldSendAutoReply_recipient_mismatch "111" exEventTo999 (by decide) (by decide)

/-! ## C5 -/

/-- C5: an event whose kind is a delivery-status value (sent, delivered,
read, failed) passes neither the route filter nor the decision unit,
and removing it from the processed event list leaves the set of
attempted auto-reply sends unchanged: no outbound send is ever
attempted for it. -/
theorem C5_status_events_never_replied (e : WhatsAppMessageData)
    (h : e.message_type ∈ (["sent", "delivered", "read", "failed"] : List String))
    (businessPhoneId : Option String) (cfg : Option ResponseConfig)
    (payload : WhatsAppWebhookPayload) (pre post : List WhatsAppMessageData) :
    routeClientMessageFilter e = false ∧
    shouldSendAutoReply businessPhoneId e = false ∧
    processAutomaticResponsesSends cfg payload (pre ++ e :: post) =
      processAutomaticResponsesSends cfg payload (pre ++ post) := by
  simp only [List.mem_cons, List.mem_singleton, List.not_mem_nil, or_false] at h
  have hf : routeClientMessageFilter e = false := by
    rcases h with h | h | h | h <;> simp [routeClientMessageFilter, h]
  have hs : shouldSendAutoReply businessPhoneId e = false := by
    have hc : STATUS_TYPES.contains e.message_type = true := by
      rcases h with h | h | h | h <;> rw [h] <;> decide
    rw [shouldSendAutoReply, if_pos hc]
  have hfilter : (pre ++ e :: post).filter routeClientMessageFilter =
      (pre ++ post).filter routeClientMessageFilter := by
    simp [List.filter_append, List.filter_cons, hf]
  refine ⟨hf, hs, ?_⟩
  simp only [processAutomaticResponsesSends, hfilter]

theorem C5_witness :
    (("delivered" : String) ∈ (["sent", "delivered", "read", "failed"] : List String)) ∧
    routeClientMessageFilter ⟨"wamid.A_delivered_100", "5511999999999", "111", some 100,
      "delivered", none, exPayloadLine111⟩ = false := by
  refine ⟨by decide, ?_⟩
  exact (C5_status_events_never_replied
    ⟨"wamid.A_delivered_100", "5511999999999", "111", some 100, "delivered", none,
      exPayloadLine111⟩ (by decide) (some "111") (some exConfig) exPayloadLine111 [] []).1

/-! ## C6 -/

def exLocation : LocationObject := ⟨"1.5", "2.5", none⟩

def exLocationMsg : WhatsAppMessage :=
  { «from» := "5511999999999", id := "wamid.C", timestamp := "100", type := "location",
    text := none, image := none, video := none, document := none,
    location := some exLocation, interactive := none }

/-- C6 counterexample: the summary of a location message is prefixed
with the text Location:, so it does not match the claimed bare pattern
of latitude, longitude and optional name. -/
theorem C6_counterexample :
    (extractMessageData exLocationMsg "111" exPayloadLine111).message_body =
      some "Location: 1.5, 2.5" ∧
    locationSummarySpecMatch exLocation "Location: 1.5, 2.5" = false := by
  exact ⟨by decide, by decide⟩

/-- C6 (amended): the summary of every location-typed message carrying a
location object is exactly the text Location: followed by latitude,
a comma, longitude, and, when a non-empty name is present, a dash and
the name — nothing else. -/
theorem C6_location_summary (m : WhatsAppMessage) (pid : String)
    (raw : WhatsAppWebhookPayload) (loc : LocationObject)
    (ht : m.type = "location") (hl : m.location = some loc) :
    (extractMessageData m pid raw).message_body =
      some ("Location: " ++ loc.latitude ++ ", " ++ loc.longitude ++
        (if strTruthy loc.name then " - " ++ jsStrOr loc.name "" else "")) := by
  simp [extractMessageData, extractMessageBody, ht, hl]

theorem C6_witness :
    (extractMessageData exLocationMsg "111" exPayloadLine111).message_body =
      some ("Location: " ++ exLocation.latitude ++ ", " ++ exLocation.longitude ++
        (if strTruthy exLocation.name then " - " ++ jsStrOr exLocation.name "" else "")) :=
  C6_location_summary exLocationMsg "111" exPayloadLine111 exLocation (by decide) (by decide)

/-! ## C7 -/

/-- C7: the GET verification handler returns the challenge with 200
exactly when the secret is configured, all three parameters are
present, the mode is subscribe and the trimmed token equals the trimmed
secret; it returns 500 whenever the secret is unconfigured, 400 when
the secret is configured but a parameter is missing, and 403 when
everything is present but the mode or token check fails. -/
theorem C7_GET_verification (vt mode token challenge : Option String) :
    (GET vt mode token challenge = ⟨200, jsStrOr challenge ""⟩ ↔
      strTruthy vt = true ∧ strTruthy mode = true ∧ strTruthy token = true ∧
        strTruthy challenge = true ∧ jsStrOr mode "" = "subscribe" ∧
        jsTrim (jsStrOr token "") = jsTrim (jsStrOr vt "")) ∧
    (strTruthy vt = false →
      GET vt mode token challenge = ⟨500, "Server configuration error"⟩) ∧
    (strTruthy vt = true →
      ¬(strTruthy mode = true ∧ strTruthy token = true ∧ strTruthy challenge = true) →
      GET vt mode token challenge = ⟨400, "Missing required parameters"⟩) ∧
    (strTruthy vt = true → strTruthy mode = true → strTruthy token = true →
      strTruthy challenge = true →
      ¬(jsStrOr mode "" = "subscribe" ∧ jsTrim (jsStrOr token "") = jsTrim (jsStrOr vt "")) →
      GET vt mode token challenge = ⟨403, "Forbidden"⟩) := by
  cases hvt : strTruthy vt with
  | false => simp [GET, hvt]
  | true =>
    cases hm : strTruthy mode with
    | false => simp [GET, hvt, hm]
    | true =>
      cases htk : strTruthy token with
      | false => simp [GET, hvt, hm, htk]
      | true =>
        cases hch : strTruthy challenge with
        | false => simp [GET, hvt, hm, htk, hch]
        | true =>
          by_cases h1 : jsStrOr mode "" = "subscribe"
          · by_cases h2 : jsTrim (jsStrOr token "") = jsTrim (jsStrOr vt "")
            · simp [GET, hvt, hm, htk, hch, h1, h2]
            · simp [GET, hvt, hm, htk, hch, h1, h2]
          · simp [GET, hvt, hm, htk, hch, h1]

theorem C7_witness :
    GET (some "secret") (some "subscribe") (some " secret ") (some "challenge42") =
      ⟨200, "challenge42"⟩ :=
  (C7_GET_verification (some "secret") (some "subscribe") (some " secret ")
    (some "challenge42")).1.mpr (by decide)

/-! ## C8 -/

/-- The failure text the claim prescribes: the vendor error message when
a non-empty one is present, otherwise HTTP followed by the status. -/
def claimedSendError (status : Nat) (e : Option WhatsAppApiError) : String :=
  match e with
  | some err => if err.message ≠ "" then err.message else "HTTP " ++ natDecimalStr status
  | none => "HTTP " ++ natDecimalStr status

/-- C8: with the credential and parameters present and a response body
that parses, a non-2xx status or an embedded vendor error object yields
success false with the vendor message (or HTTP status) as the error,
and a clean 2xx response yields success true with the id of the first
element of the messages list (absent when that list is empty or
missing). -/
theorem C8_send_result (accessToken : String) (params : SendMessageParams)
    (status : Nat) (data : WhatsAppApiResponse)
    (htok : accessToken ≠ "") (hpid : params.phoneNumberId ≠ "")
    (hto : params.«to» ≠ "") (hmsg : params.message ≠ "") :
    ((httpOk status = false ∨ data.error.isSome = true) →
      (sendWhatsAppMessage (some accessToken) params (.response status (.json data))).success
          = false ∧
      (sendWhatsAppMessage (some accessToken) params (.response status (.json data))).error
          = some (claimedSendError status data.error)) ∧
    (httpOk status = true → data.error = none →
      (sendWhatsAppMessage (some accessToken) params (.response status (.json data))).success
          = true ∧
      (sendWhatsAppMessage (some accessToken) params (.response status (.json data))).messageId
          = ((data.messages.getD []).head?).map (fun m => m.id)) := by
  have hres : sendWhatsAppMessage (some accessToken) params (.response status (.json data)) =
      (if !(httpOk status) || data.error.isSome then
        (⟨false, none, some (match data.error with
          | some err => if err.message == "" then "HTTP " ++ natDecimalStr status
            else err.message
          | none => "HTTP " ++ natDecimalStr status)⟩ : SendResult)
      else ⟨true, ((data.messages.getD []).head?).map (fun m => m.id), none⟩) := by
    simp [sendWhatsAppMessage, strTruthy, htok, hpid, hto, hmsg]
  constructor
  · intro hd
    have hcond : (!(httpOk status) || data.error.isSome) = true := by
      rcases hd with hd | hd <;> simp [hd]
    rw [hres, if_pos hcond]
    refine ⟨rfl, ?_⟩
    cases data.error with
    | none => rfl
    | some err =>
      simp only [claimedSendError]
      by_cases he : err.message = ""
      · simp [he]
      · simp [he]
  · intro hok herr
    have hcond : ¬((!(httpOk status) || data.error.isSome) = true) := by
      simp [hok, herr]
    rw [hres, if_neg hcond]
    exact ⟨rfl, rfl⟩

theorem C8_witness :
    ("tok" : String) ≠ "" ∧
    (sendWhatsAppMessage (some "tok") ⟨"111", "5511999999999", "Hello"⟩
      (.response 400 (.json ⟨some [⟨"wamid.X"⟩], none⟩))).error = some "HTTP 400" ∧
    (sendWhatsAppMessage (some "tok") ⟨"111", "5511999999999", "Hello"⟩
      (.response 200 (.json ⟨some [⟨"wamid.X"⟩], none⟩))).messageId = some "wamid.X" := by
  refine ⟨by decide, ?_, ?_⟩
  · exact ((C8_send_result "tok" ⟨"111", "5511999999999", "Hello"⟩ 400
      ⟨some [⟨"wamid.X"⟩], none⟩ (by decide) (by decide) (by decide) (by decide)).1
      (Or.inl (by decide))).2
  · exact ((C8_send_result "tok" ⟨"111", "5511999999999", "Hello"⟩ 200
      ⟨some [⟨"wamid.X"⟩], none⟩ (by decide) (by decide) (by decide) (by decide)).2
      (by decide) rfl).2

/-! ## C9 -/

/-- A read sequence whose first attempt hits a connection error and
whose second succeeds. -/
def exDbRetry : Nat → ConfigReadOutcome :=
  fun i => if i == 0 then .connError else .success exConfig

/-- C9 counterexample: when the first call retries a connection error,
the two calls issue two underlying reads, not exactly one, even though
the second call falls inside the TTL window of the value the first call
cached. -/
theorem C9_counterexample :
    ((10000 : Nat) - 0 < CACHE_TTL) ∧
    (getResponseConfig exDbRetry 10000 (getResponseConfig exDbRetry 0 none).newCache).reads
        = 0 ∧
    (getResponseConfig exDbRetry 0 none).reads +
      (getResponseConfig exDbRetry 10000 (getResponseConfig exDbRetry 0 none).newCache).reads
        = 2 := by
  exact ⟨by decide, by decide, by decide⟩

/-- C9 (amended): a second call within the TTL of the cached value
returns that value without any fresh lookup; when the first call
resolves on its first attempt, exactly one underlying read is issued
across the two calls (with connection-error retries the first call may
issue up to three reads — see the counterexample). -/
theorem C9_cache_hit (db db2 : Nat → ConfigReadOutcome) (now1 now2 : Nat)
    (c : ResponseConfig) (h0 : db 0 = .success c)
    (hm : (c.default_message == "" || jsTrim c.default_message == "") = false)
    (httl : now2 - now1 < CACHE_TTL) :
    (getResponseConfig db now1 none).reads = 1 ∧
    (getResponseConfig db now1 none).result = some c ∧
    (getResponseConfig db2 now2 (getResponseConfig db now1 none).newCache).reads = 0 ∧
    (getResponseConfig db2 now2 (getResponseConfig db now1 none).newCache).result = some c := by
  have hloop : getConfigLoop db now1 none 2 0 3 =
      ⟨some c, some ⟨some c, now1⟩, 1⟩ := by
    rw [getConfigLoop, h0]
    simp [hm]
  rw [getResponseConfig]
  rw [hloop]
  refine ⟨rfl, rfl, ?_, ?_⟩ <;>
    simp [getResponseConfig, httl]

theorem C9_witness :
    ((100 : Nat) - 0 < CACHE_TTL) ∧
    (getResponseConfig (fun _ => .success exConfig) 0 none).reads = 1 ∧
    (getResponseConfig (fun _ => .success exConfig) 100
      (getResponseConfig (fun _ => .success exConfig) 0 none).newCache).reads = 0 := by
  refine ⟨by decide, ?_, ?_⟩
  · exact (C9_cache_hit (fun _ => .success exConfig) (fun _ => .success exConfig) 0 100
      exConfig rfl (by decide) (by decide)).1
  · exact (C9_cache_hit (fun _ => .success exConfig) (fun _ => .success exConfig) 0 100
      exConfig rfl (by decide) (by decide)).2.2.1

/-! ## C10 -/

/-- C10: processWebhookPayload is deterministic on every payload whose
unrecognized-field elements all carry an id and a timestamp — the
result does not depend on the clock — and on a payload with an element
lacking them two runs at different clock values differ. -/
theorem C10_conditional_determinism :
    (∀ (payload : WhatsAppWebhookPayload) (n1 n2 : Nat), payloadDet payload = true →
      processWebhookPayload payload n1 = processWebhookPayload payload n2) ∧
    processWebhookPayload exPayloadClock 1000 ≠ processWebhookPayload exPayloadClock 2000 := by
  constructor
  · intro payload n1 n2 hdet
    rw [processWebhookPayload, processWebhookPayload]
    apply processEntriesLoop_det
    intro e he c hc
    have h1 := (List.all_eq_true.mp hdet) e he
    exact (List.all_eq_true.mp h1) c hc
  · decide

theorem C10_witness :
    payloadDet exPayloadMixed = true ∧
    processWebhookPayload exPayloadMixed 5 = processWebhookPayload exPayloadMixed 7 :=
  ⟨by decide, C10_conditional_determinism.1 exPayloadMixed 5 7 (by decide)⟩
